import Mathlib

/-!
Verification of the ESP Serial Web Monitor (ardzz/esp32-monitor).

The repository ships the frontend source (frontend/src/App.jsx) and the
README contract for the backend.  The frontend pieces below are embedded
directly from App.jsx; the backend components (serial session manager,
network access controller, process state) have no source in the repository
and are modelled from the specification text, as marked on each definition.
-/

namespace EspMonitor

/-! ## Frontend log buffer (frontend/src/App.jsx, ws.onmessage handler)

The handler appends the incoming entry to the log array and, when the
array length then exceeds 5000, shifts off the first (oldest) entry. -/

/-- One delivery into the UI log buffer, from App.jsx:
the new entry is appended, and if the resulting length exceeds 5000 the
oldest entry is shifted off (arr.push(x); if (arr.length > 5000) arr.shift()). -/
def pushLog (log : List String) (x : String) : List String :=
  let arr := log ++ [x]
  if arr.length > 5000 then arr.drop 1 else arr

/-- The buffer contents a subscriber holds after a sequence of published
lines has been delivered into an initially empty buffer. -/
def receivedLines (published : List String) : List String :=
  published.foldl pushLog []

lemma pushLog_suffix {p b : List String} (x : String) (h : b.IsSuffix p) :
    (pushLog b x).IsSuffix (p ++ [x]) := by
  have hbx : (b ++ [x]).IsSuffix (p ++ [x]) := by
    obtain ⟨t, ht⟩ := h
    exact ⟨t, by rw [← List.append_assoc, ht]⟩
  unfold pushLog
  by_cases hlen : (b ++ [x]).length > 5000
  · simp only [hlen, if_pos]
    exact ((b ++ [x]).drop_suffix 1).trans hbx
  · simp only [hlen, if_neg, not_false_iff]
    simpa using hbx

lemma pushLog_length_le {b : List String} (x : String) (h : b.length ≤ 5000) :
    (pushLog b x).length ≤ 5000 := by
  unfold pushLog
  by_cases hlen : (b ++ [x]).length > 5000
  · simp only [hlen, if_pos]
    simp [List.length_drop, List.length_append] at *
    omega
  · simp only [hlen, if_neg, not_false_iff]
    omega

lemma foldl_pushLog_invariant :
    ∀ (lines b p : List String), b.IsSuffix p → b.length ≤ 5000 →
      (lines.foldl pushLog b).IsSuffix (p ++ lines) ∧
        (lines.foldl pushLog b).length ≤ 5000 := by
  intro lines
  induction lines with
  | nil => intro b p hs hl; simpa using ⟨hs, hl⟩
  | cons x rest ih =>
      intro b p hs hl
      have step := ih (pushLog b x) (p ++ [x]) (pushLog_suffix x hs) (pushLog_length_le x hl)
      simpa [List.append_assoc] using step

lemma pushLog_at_capacity {b : List String} (x : String) (hb : b.length = 5000) :
    pushLog b x = b.drop 1 ++ [x] := by
  unfold pushLog
  have hlen : (b ++ [x]).length > 5000 := by
    simp [List.length_append, hb]
  simp only [hlen, if_pos]
  exact List.drop_append_of_le_length (by omega)

/-! ## Frontend stream message handler (frontend/src/App.jsx, ws.onmessage)

The handler tries JSON.parse on the payload; on success it appends
a bracketed timestamp followed by the line field, on a parse exception it
appends the raw payload text; both paths go through the same capped push.
JSON.parse and the Date rendering are embedded as function parameters:
parse returns none exactly when JSON.parse throws. -/

/-- A successfully parsed stream message: the ts and line fields of the
JSON payload sent over the ws serial channel. -/
structure Msg where
  ts : Int
  line : String
deriving DecidableEq, Repr

/-- The ws.onmessage handler from App.jsx: parse the payload, append either
the rendered timestamped line or, when parsing fails, the raw payload,
through the capped pushLog in both cases. -/
def onMessage (parse : String → Option Msg) (render : Int → String)
    (data : String) (log : List String) : List String :=
  match parse data with
  | some m => pushLog log ("[" ++ render m.ts ++ "] " ++ m.line)
  | none => pushLog log data

/-! ## Frontend WebSocket lifecycle (frontend/src/App.jsx, openWS and disconnect)

wsRef stores at most one WebSocket.  openWS first closes and clears any
stored connection, then constructs a new WebSocket and stores it;
disconnect closes and clears the stored connection.  Connections are
tracked by identifier; openConns lists the identifiers of currently open
stream connections held by this client. -/

/-- The client-side connection state: the stored wsRef (identifier of the
current WebSocket, if any), the identifiers of all connections still open,
and a counter supplying fresh identifiers. -/
structure WSState where
  current : Option Nat
  openConns : List Nat
  nextId : Nat
deriving DecidableEq, Repr

/-- Closing and clearing the stored connection, from App.jsx:
if (wsRef.current) then wsRef.current.close(); wsRef.current = null. -/
def closeCurrent (st : WSState) : WSState :=
  match st.current with
  | some i => ⟨none, st.openConns.erase i, st.nextId⟩
  | none => st

/-- openWS from App.jsx: close and clear any stored connection, then open
a fresh WebSocket to the serial stream endpoint and store it. -/
def openWS (st : WSState) : WSState :=
  let st1 := closeCurrent st
  ⟨some st1.nextId, st1.openConns ++ [st1.nextId], st1.nextId + 1⟩

/-- disconnect from App.jsx: request detach, then close and clear the
stored connection. -/
def uiDisconnect (st : WSState) : WSState :=
  closeCurrent st

/-- The client events that touch the stored stream connection: a
successful attach calls openWS, and disconnect tears the connection down. -/
inductive WSEvent
  | openStream
  | detachUI
deriving DecidableEq, Repr

def wsStep (st : WSState) : WSEvent → WSState
  | .openStream => openWS st
  | .detachUI => uiDisconnect st

/-- The client starts with no stored and no open connection
(useRef(null) in App.jsx). -/
def wsInit : WSState := ⟨none, [], 0⟩

/-- Client connection state after a sequence of events from the initial
state. -/
def runWS (evs : List WSEvent) : WSState :=
  evs.foldl wsStep wsInit

/-- The state invariant: the open connections are exactly the stored one,
when present. -/
def WSInv (st : WSState) : Prop :=
  (st.current = none ∧ st.openConns = []) ∨
    (∃ i, st.current = some i ∧ st.openConns = [i])

lemma wsStep_inv {st : WSState} (h : WSInv st) (e : WSEvent) : WSInv (wsStep st e) := by
  rcases h with ⟨hc, ho⟩ | ⟨i, hc, ho⟩ <;> cases e <;>
    simp_all [wsStep, openWS, uiDisconnect, closeCurrent, WSInv]

lemma runWS_inv (evs : List WSEvent) : WSInv (runWS evs) := by
  have aux : ∀ (l : List WSEvent) (st : WSState), WSInv st → WSInv (l.foldl wsStep st) := by
    intro l
    induction l with
    | nil => intro st h; simpa using h
    | cons e rest ih => intro st h; exact ih _ (wsStep_inv h e)
  exact aux evs wsInit (Or.inl ⟨rfl, rfl⟩)

/-! ## Serial session manager (backend; no backend source ships in the
repository, so the manager is modelled from the specification text). -/

/-- The session state machine of the serial session manager. -/
inductive SessionState
  | Detached
  | Attaching
  | Attached
  | Detaching
deriving DecidableEq, Repr

/-- Attach-time errors of the session manager. -/
inductive AttachError
  | PortBusyError
  | PortOpenError
deriving DecidableEq, Repr

/-- Write-time error of the session manager. -/
inductive SerialWriteError
  | NotAttachedError
deriving DecidableEq, Repr

/-- Modelled from the spec: attach(port, baudrate) of the serial session
manager, whose backend source is absent from the repository.  It fails
with PortBusyError when a session already exists (state Attached or
Attaching, and likewise while a detach is still releasing the handle),
fails with PortOpenError when the OS open fails (the openOk flag embeds
the OS outcome), and otherwise transitions Detached to Attached.  The
transient Attaching phase completes within the call, so the returned
state is Attached on success. -/
def attach (openOk : Bool) (s : SessionState) : Except AttachError Unit × SessionState :=
  match s with
  | .Attached => (.error .PortBusyError, s)
  | .Attaching => (.error .PortBusyError, s)
  | .Detaching => (.error .PortBusyError, s)
  | .Detached =>
      if openOk then (.ok (), .Attached) else (.error .PortOpenError, .Detached)

/-- Modelled from the spec: detach() of the serial session manager, whose
backend source is absent from the repository.  It always succeeds (ok
true), stopping the read loop and releasing the handle when one is held;
the transient Detaching phase completes within the call, landing on
Detached from every starting state. -/
def detach (_s : SessionState) : Bool × SessionState :=
  (true, .Detached)

/-- Modelled from the spec: write(bytes, appendNewline) of the serial
session manager, whose backend source is absent from the repository.  It
requires the session to be Attached and fails with NotAttachedError
otherwise; on success it returns the bytes that reach the device, with a
newline byte appended when requested. -/
def write (data : List Nat) (appendNewline : Bool) (s : SessionState) :
    Except SerialWriteError (List Nat) :=
  match s with
  | .Attached => .ok (if appendNewline then data ++ [10] else data)
  | _ => .error .NotAttachedError

/-- A call into the session manager: an attach attempt (with the OS open
outcome it would meet) or a detach. -/
inductive SessionOp
  | attachOp (openOk : Bool)
  | detachOp
deriving DecidableEq, Repr

/-- Running a sequence of attach/detach calls: the final state together
with the trace pairing each call with whether it returned success. -/
def sessionRun : SessionState → List SessionOp → SessionState × List (SessionOp × Bool)
  | s, [] => (s, [])
  | s, .attachOp ok :: ops =>
      ((sessionRun (attach ok s).2 ops).1,
        (SessionOp.attachOp ok, ((attach ok s).1).toBool) :: (sessionRun (attach ok s).2 ops).2)
  | s, .detachOp :: ops =>
      ((sessionRun (detach s).2 ops).1,
        (SessionOp.detachOp, (detach s).1) :: (sessionRun (detach s).2 ops).2)

/-- Whether a trace entry is an attach call that returned success. -/
def isSuccessfulAttach (p : SessionOp × Bool) : Prop :=
  (∃ ok, p.1 = SessionOp.attachOp ok) ∧ p.2 = true

/-- The spec-side reading of attachment: some attach call in the trace
returned success and no detach call follows it. -/
def attachedPerSpec (tr : List (SessionOp × Bool)) : Prop :=
  ∃ t1 p t2, tr = t1 ++ p :: t2 ∧ isSuccessfulAttach p ∧
    ∀ q ∈ t2, q.1 ≠ SessionOp.detachOp

lemma attachedPerSpec_nil : ¬ attachedPerSpec [] := by
  rintro ⟨t1, p, t2, heq, -, -⟩
  have hlen := congrArg List.length heq
  simp [List.length_append] at hlen
  omega

lemma attachedPerSpec_cons (p : SessionOp × Bool) (tr : List (SessionOp × Bool)) :
    attachedPerSpec (p :: tr) ↔
      (isSuccessfulAttach p ∧ ∀ q ∈ tr, q.1 ≠ SessionOp.detachOp) ∨ attachedPerSpec tr := by
  constructor
  · rintro ⟨t1, p', t2, heq, hsucc, hnod⟩
    cases t1 with
    | nil =>
        simp only [List.nil_append, List.cons.injEq] at heq
        obtain ⟨hp, ht⟩ := heq
        subst hp; subst ht
        exact Or.inl ⟨hsucc, hnod⟩
    | cons a t1x =>
        simp only [List.cons_append, List.cons.injEq] at heq
        obtain ⟨-, ht⟩ := heq
        exact Or.inr ⟨t1x, p', t2, ht, hsucc, hnod⟩
  · rintro (⟨hsucc, hnod⟩ | ⟨t1, p', t2, heq, hsucc, hnod⟩)
    · exact ⟨[], p, tr, rfl, hsucc, hnod⟩
    · exact ⟨p :: t1, p', t2, by rw [heq]; rfl, hsucc, hnod⟩

lemma sessionRun_attached_iff (ops : List SessionOp) :
    ∀ s : SessionState, s = SessionState.Detached ∨ s = SessionState.Attached →
      ((sessionRun s ops).1 = SessionState.Attached ↔
        (attachedPerSpec (sessionRun s ops).2 ∨
          (s = SessionState.Attached ∧
            ∀ q ∈ (sessionRun s ops).2, q.1 ≠ SessionOp.detachOp))) := by
  induction ops with
  | nil =>
      intro s hs
      rcases hs with rfl | rfl <;> simp [sessionRun, attachedPerSpec_nil]
  | cons op rest ih =>
      intro s hs
      cases op with
      | detachOp =>
          have h := ih SessionState.Detached (Or.inl rfl)
          rcases hs with rfl | rfl <;>
            simp only [sessionRun, detach, attachedPerSpec_cons, isSuccessfulAttach] at h ⊢ <;>
            simp at h ⊢ <;> tauto
      | attachOp ok =>
          rcases hs with rfl | rfl
          · cases ok with
            | true =>
                have h := ih SessionState.Attached (Or.inr rfl)
                simp only [sessionRun, attach, attachedPerSpec_cons, isSuccessfulAttach,
                  Except.toBool] at h ⊢
                simp at h ⊢
                tauto
            | false =>
                have h := ih SessionState.Detached (Or.inl rfl)
                simp only [sessionRun, attach, attachedPerSpec_cons, isSuccessfulAttach,
                  Except.toBool] at h ⊢
                simp at h ⊢
                tauto
          · have h := ih SessionState.Attached (Or.inr rfl)
            simp only [sessionRun, attach, attachedPerSpec_cons, isSuccessfulAttach,
              Except.toBool] at h ⊢
            simp at h ⊢
            tauto

/-! ## Network access controller (backend; no backend source ships in the
repository, so the controller is modelled from the specification text and
the README contract: try the block/unblock call, on a non-success
response login once and retry the call exactly once, success being
strictly the router body with result success). -/

/-- One router response as the controller observes it: a transport-level
failure, or an HTTP response with a status code and a body. -/
inductive RouterResp
  | transportError (msg : String)
  | httpResp (status : Nat) (body : String)
deriving DecidableEq, Repr

/-- The router body that counts as the documented success indicator. -/
def successBody : String := "\x7b\"result\":\"success\"\x7d"

/-- Modelled from the spec: the strict success predicate on one router
response — exactly an HTTP response whose body is the documented success
indicator; a transport failure or any other body is a failed attempt. -/
def isRouterSuccess : RouterResp → Bool
  | .httpResp _ body => body = successBody
  | .transportError _ => false

/-- The router environment one control operation runs against: the
responses the router would give to the direct block/unblock attempt, to
the login call, and to the retried block/unblock attempt. -/
structure RouterEnv where
  firstResp : RouterResp
  loginResp : RouterResp
  retryResp : RouterResp
deriving DecidableEq, Repr

/-- A call the controller issues to the router. -/
inductive RouterCall
  | blockUnblock
  | login
deriving DecidableEq, Repr

/-- Modelled from the spec: the two-phase protocol of the network access
controller, whose backend source is absent from the repository.  Attempt
the block/unblock call directly; if that response is not the success
indicator, perform one login call and retry the block/unblock call
exactly once.  Returns overall success together with the calls issued in
order. -/
def controlAttempt (env : RouterEnv) : Bool × List RouterCall :=
  if isRouterSuccess env.firstResp then
    (true, [.blockUnblock])
  else
    (isRouterSuccess env.retryResp, [.blockUnblock, .login, .blockUnblock])

/-- The process-wide network state the controller maintains. -/
structure NetworkState where
  connected : Bool
  last_known_mac : String
deriving DecidableEq, Repr

/-- Per-request router credentials. -/
structure NetworkCredentials where
  mac_address : String
  router_host : String
  username : String
  password : String
deriving DecidableEq, Repr

/-- The error a failed control call reports, carrying the router response
or transport error of the final failed attempt as cause. -/
inductive NetworkControlError
  | failed (cause : RouterResp)
deriving DecidableEq, Repr

/-- Modelled from the spec: a connect (target true) or disconnect (target
false) call of the network access controller, whose backend source is
absent from the repository.  On overall success NetworkState.connected is
set to the target and last_known_mac to the requested MAC; after both
attempts fail the call returns NetworkControlError with the final
response as cause and leaves NetworkState unchanged. -/
def networkControl (target : Bool) (creds : NetworkCredentials) (env : RouterEnv)
    (st : NetworkState) : Except NetworkControlError Unit × NetworkState :=
  if (controlAttempt env).1 then
    (.ok (), ⟨target, creds.mac_address⟩)
  else
    (.error (.failed env.retryResp), st)

/-- The connect operation: unblock the MAC, marking the network connected. -/
def netConnect (creds : NetworkCredentials) (env : RouterEnv) (st : NetworkState) :
    Except NetworkControlError Unit × NetworkState :=
  networkControl true creds env st

/-- The disconnect operation: block the MAC, marking the network
disconnected. -/
def netDisconnect (creds : NetworkCredentials) (env : RouterEnv) (st : NetworkState) :
    Except NetworkControlError Unit × NetworkState :=
  networkControl false creds env st

/-! ## Process-wide state (backend; modelled from the specification text). -/

/-- The process-wide mutable state: the single device session and the
network state. -/
structure ProcState where
  session : SessionState
  network : NetworkState
deriving DecidableEq, Repr

/-- Modelled from the spec: the well-defined initial process state created
at backend process start — session Detached, network connected false — in
the absence of backend source in the repository. -/
def initProcState : ProcState :=
  ⟨.Detached, ⟨false, ""⟩⟩

/-- The documented operations through which the process-wide state is
mutated. -/
inductive ProcOp
  | attachOp (openOk : Bool)
  | detachOp
  | writeOp (data : List Nat) (appendNewline : Bool)
  | netOp (target : Bool) (creds : NetworkCredentials) (env : RouterEnv)

/-- One documented operation applied to the process-wide state.  A write
call never changes the session or network state. -/
def procStep (s : ProcState) : ProcOp → ProcState
  | .attachOp ok => ⟨(attach ok s.session).2, s.network⟩
  | .detachOp => ⟨(detach s.session).2, s.network⟩
  | .writeOp _ _ => s
  | .netOp t c e => ⟨s.session, (networkControl t c e s.network).2⟩

/-- The process-wide state after a sequence of documented operations from
process start. -/
def runProc (ops : List ProcOp) : ProcState :=
  ops.foldl procStep initProcState

/-! ## Claim theorems -/

/-- C1: at most one device session exists at a time.  An attach issued
while the session is Attached or Attaching is rejected with PortBusyError
and leaves the state unchanged (not queued), and over every sequence of
attach/detach calls starting from Detached, the session ends Attached
exactly when some attach call returned success with no detach call after
it. -/
theorem single_session_attach (ops : List SessionOp) (ok : Bool) :
    attach ok SessionState.Attached =
        (Except.error AttachError.PortBusyError, SessionState.Attached) ∧
      attach ok SessionState.Attaching =
        (Except.error AttachError.PortBusyError, SessionState.Attaching) ∧
      ((sessionRun SessionState.Detached ops).1 = SessionState.Attached ↔
        attachedPerSpec (sessionRun SessionState.Detached ops).2) := by
  refine ⟨rfl, rfl, ?_⟩
  have h := sessionRun_attached_iff ops SessionState.Detached (Or.inl rfl)
  simpa using h

/-- C2: each control operation first attempts the block/unblock call
directly; exactly when that attempt does not return the success
indicator, it performs one login call and one retry of the block/unblock
call and nothing further; the operation succeeds exactly when a
performed block/unblock attempt returned the success indicator, and a
response is the success indicator exactly when it is an HTTP response
whose body is the documented success body — transport failures and
HTTP-level successes with a different body are failed attempts. -/
theorem two_phase_router_protocol (env : RouterEnv) (r : RouterResp) :
    ((controlAttempt env).2 =
        if isRouterSuccess env.firstResp then [RouterCall.blockUnblock]
        else [RouterCall.blockUnblock, RouterCall.login, RouterCall.blockUnblock]) ∧
      ((controlAttempt env).1 = true ↔
        (isRouterSuccess env.firstResp = true ∨
          (isRouterSuccess env.firstResp = false ∧ isRouterSuccess env.retryResp = true))) ∧
      (isRouterSuccess r = true ↔ ∃ st, r = RouterResp.httpResp st successBody) := by
  refine ⟨?_, ?_, ?_⟩
  · unfold controlAttempt
    by_cases h : isRouterSuccess env.firstResp <;> simp [h]
  · unfold controlAttempt
    by_cases h : isRouterSuccess env.firstResp <;> simp [h]
  · cases r with
    | transportError msg => simp [isRouterSuccess]
    | httpResp st body =>
        simp only [isRouterSuccess, decide_eq_true_eq, RouterResp.httpResp.injEq]
        constructor
        · intro h; exact ⟨st, rfl, h⟩
        · rintro ⟨st2, -, h⟩; exact h

/-- C3: a connect call that succeeds sets NetworkState.connected to true,
a disconnect call that succeeds sets it to false, both record the
requested MAC in last_known_mac; when both block/unblock attempts fail
the call returns NetworkControlError carrying the final router response
as cause and NetworkState is exactly unchanged, and the overall attempt
fails exactly when both the direct attempt and the post-login retry
missed the success indicator. -/
theorem network_state_update (creds : NetworkCredentials) (env : RouterEnv)
    (st : NetworkState) :
    (netConnect creds env st =
        if (controlAttempt env).1 then (Except.ok (), ⟨true, creds.mac_address⟩)
        else (Except.error (NetworkControlError.failed env.retryResp), st)) ∧
      (netDisconnect creds env st =
        if (controlAttempt env).1 then (Except.ok (), ⟨false, creds.mac_address⟩)
        else (Except.error (NetworkControlError.failed env.retryResp), st)) ∧
      ((controlAttempt env).1 = false ↔
        (isRouterSuccess env.firstResp = false ∧ isRouterSuccess env.retryResp = false)) := by
  refine ⟨?_, ?_, ?_⟩
  · unfold netConnect networkControl
    by_cases h : (controlAttempt env).1 <;> simp [h]
  · unfold netDisconnect networkControl
    by_cases h : (controlAttempt env).1 <;> simp [h]
  · unfold controlAttempt
    by_cases h : isRouterSuccess env.firstResp <;> simp [h]

/-- C4: the buffer a subscriber holds after any sequence of published
lines is a suffix, hence an order-preserving duplicate-free subsequence,
of the published lines: the only loss is drop-oldest removal. -/
theorem subscriber_order_preserved (published : List String) :
    (receivedLines published).IsSuffix published ∧
      (receivedLines published).Sublist published := by
  have h := foldl_pushLog_invariant published [] [] ⟨[], by simp⟩ (by simp)
  simp only [List.nil_append] at h
  exact ⟨h.1, h.1.sublist⟩

/-- C5: the subscriber buffer is bounded by 5000 lines: a delivery into a
buffer at capacity removes exactly the oldest line and no other, the
result stays at the cap, and after every publish sequence the buffer
length is at most 5000 (the push never blocks: it is a total function of
the buffer). -/
theorem subscriber_buffer_bounded (b : List String) (x : String)
    (hb : b.length = 5000) :
    (pushLog b x).length ≤ 5000 ∧
      pushLog b x = b.drop 1 ++ [x] ∧
      ∀ published : List String, (receivedLines published).length ≤ 5000 := by
  refine ⟨pushLog_length_le x (le_of_eq hb), pushLog_at_capacity x hb, ?_⟩
  intro published
  exact (foldl_pushLog_invariant published [] [] ⟨[], by simp⟩ (by simp)).2

/-- Witness for C5 at a concrete buffer of exactly 5000 lines. -/
theorem subscriber_buffer_bounded_witness :
    (pushLog (List.replicate 5000 "a") "b").length ≤ 5000 ∧
      pushLog (List.replicate 5000 "a") "b" = (List.replicate 5000 "a").drop 1 ++ ["b"] ∧
      ∀ published : List String, (receivedLines published).length ≤ 5000 :=
  subscriber_buffer_bounded (List.replicate 5000 "a") "b" (List.length_replicate 5000 "a")

/-- C6: detach is idempotent: every detach call returns success, a second
detach immediately after any detach also succeeds and leaves the state
Detached, and detaching while already Detached is a no-op success. -/
theorem detach_idempotent (s : SessionState) :
    (detach s).1 = true ∧
      detach (detach s).2 = (true, SessionState.Detached) ∧
      detach SessionState.Detached = (true, SessionState.Detached) :=
  ⟨rfl, rfl, rfl⟩

/-- C7: for every payload, a write while the session is Detached fails
with NotAttachedError, and a write reaches the device (returns the sent
bytes) exactly when the session is Attached. -/
theorem write_requires_attached (data : List Nat) (appendNewline : Bool) :
    write data appendNewline SessionState.Detached =
        Except.error SerialWriteError.NotAttachedError ∧
      ∀ s : SessionState,
        (∃ out, write data appendNewline s = Except.ok out) ↔ s = SessionState.Attached := by
  refine ⟨rfl, ?_⟩
  intro s
  cases s <;> simp [write]

/-- C8: the process-wide state at process start is the well-defined
initial state — session Detached and network connected false — and the
state after any operation sequence evolves only by applying the
documented operations one at a time. -/
theorem initial_process_state :
    initProcState.session = SessionState.Detached ∧
      initProcState.network.connected = false ∧
      runProc [] = initProcState ∧
      ∀ (ops : List ProcOp) (op : ProcOp),
        runProc (ops ++ [op]) = procStep (runProc ops) op := by
  refine ⟨rfl, rfl, rfl, ?_⟩
  intro ops op
  simp [runProc, List.foldl_append]

/-- C9: the client holds at most one live stream connection in every
reachable state; a disconnect event closes and clears the stored
connection, and an openWS event leaves exactly the freshly created
connection stored and open. -/
theorem single_live_stream_connection (evs : List WSEvent) :
    (runWS evs).openConns.length ≤ 1 ∧
      (runWS (evs ++ [WSEvent.detachUI])).current = none ∧
      (runWS (evs ++ [WSEvent.detachUI])).openConns = [] ∧
      ∃ i, (runWS (evs ++ [WSEvent.openStream])).current = some i ∧
        (runWS (evs ++ [WSEvent.openStream])).openConns = [i] := by
  have hinv := runWS_inv evs
  have happ : ∀ e : WSEvent, runWS (evs ++ [e]) = wsStep (runWS evs) e := by
    intro e; simp [runWS, List.foldl_append]
  rcases hinv with ⟨hc, ho⟩ | ⟨i, hc, ho⟩ <;>
    simp [happ, wsStep, uiDisconnect, openWS, closeCurrent, hc, ho]

/-- C10: a stream payload that fails to parse as JSON is not dropped: the
handler appends the raw payload text itself, with no timestamp prefix,
through the very same capped push used on the parsed path. -/
theorem unparsed_payload_kept_raw
    (parse parse2 : String → Option Msg) (render : Int → String)
    (data data2 : String) (log log2 : List String) (m : Msg)
    (hnone : parse data = none) (hsome : parse2 data2 = some m) :
    onMessage parse render data log = pushLog log data ∧
      onMessage parse2 render data2 log2 =
        pushLog log2 ("[" ++ render m.ts ++ "] " ++ m.line) := by
  constructor
  · unfold onMessage
    rw [hnone]
  · unfold onMessage
    rw [hsome]

/-- Witness for C10 at a concrete failing parse and a concrete succeeding
parse. -/
theorem unparsed_payload_kept_raw_witness :
    onMessage (fun _ => none) toString "raw line" [] = pushLog [] "raw line" ∧
      onMessage (fun _ => some ⟨7, "hello"⟩) toString "msg" ["old"] =
        pushLog ["old"] ("[" ++ toString (7 : Int) ++ "] " ++ "hello") :=
  unparsed_payload_kept_raw (fun _ => none) (fun _ => some ⟨7, "hello"⟩) toString
    "raw line" "msg" [] ["old"] ⟨7, "hello"⟩ rfl rfl

end EspMonitor
